import Mathlib

/-!
Shallow embedding of the `remcap` benchmarking harness (`bench` package) and
proofs about its metrics model, aggregation, serialization round-trip,
orchestrator control flow, client publish loop and memory sampler.

Python floats are modelled as exact rationals (`ℚ`); Python `sorted` is
modelled by the stable `List.insertionSort`; Python `int(x)` on a nonnegative
float is truncation, which for `len * 0.99` coincides with `99 * n / 100` in
natural-number division.
-/

/-- Python `sorted` on a list of floats: stable ascending sort. -/
def sortQ (l : List ℚ) : List ℚ := l.insertionSort (fun a b => a ≤ b)

/-- Python `statistics.mean` (call sites guard against the empty list). -/
def meanQ (l : List ℚ) : ℚ := l.sum / l.length

/-- Python `statistics.median`: sort, middle element for odd length, average of
the two middle elements for even length. -/
def medianQ (l : List ℚ) : ℚ :=
  let s := sortQ l
  let n := l.length
  if n % 2 = 1 then s.getD (n / 2) 0
  else (s.getD (n / 2 - 1) 0 + s.getD (n / 2) 0) / 2

/-- Python `max` over a nonempty list (call sites guard against empty). -/
def maxQ (l : List ℚ) : ℚ :=
  match l with
  | [] => 0
  | h :: t => t.foldl max h

/-- Python `min` over a nonempty list (call sites guard against empty). -/
def minQ (l : List ℚ) : ℚ :=
  match l with
  | [] => 0
  | h :: t => t.foldl min h

/-- The nearest-rank p99 computation shared by `ClientMetrics.latency_p99_ms`
and `AggregatedClientMetrics.from_clients` (`metrics.py` lines 103-109 and
204-206): sort ascending, `idx = int(len * 0.99)`, clamp to `len - 1`.
`int(n * 0.99)` is `99 * n / 100` in exact arithmetic. -/
def p99Q (l : List ℚ) : ℚ :=
  if l.isEmpty then 0
  else
    let s := sortQ l
    let idx := 99 * s.length / 100
    s.getD (min idx (s.length - 1)) 0

/-- Embeds `bench.metrics.MemorySample`. -/
structure MemorySample where
  timestamp : ℚ
  memory_mb : ℚ
  deriving DecidableEq, Repr

/-- Embeds `bench.metrics.ServerMetrics` (stored fields only; peak/avg/duration are
derived properties). -/
structure ServerMetrics where
  memory_samples : List MemorySample := []
  start_time : ℚ := 0
  end_time : ℚ := 0
  rrd_file_size_mb : ℚ := 0
  deriving DecidableEq, Repr

/-- Embeds `ServerMetrics.memory_peak_mb` property. -/
def ServerMetrics.memory_peak_mb (m : ServerMetrics) : ℚ :=
  if m.memory_samples.isEmpty then 0
  else maxQ (m.memory_samples.map MemorySample.memory_mb)

/-- Embeds `ServerMetrics.memory_avg_mb` property. -/
def ServerMetrics.memory_avg_mb (m : ServerMetrics) : ℚ :=
  if m.memory_samples.isEmpty then 0
  else meanQ (m.memory_samples.map MemorySample.memory_mb)

/-- Embeds `ServerMetrics.duration_sec` property. -/
def ServerMetrics.duration_sec (m : ServerMetrics) : ℚ := m.end_time - m.start_time

/-- Embeds `bench.metrics.ClientMetrics` (stored fields). Python `data_size` is
`int | str`, modelled as a sum. -/
structure ClientMetrics where
  client_id : String := ""
  data_type : String := ""
  data_size : ℤ ⊕ String := .inl 0
  frequency_hz : ℚ := 0
  log_count : ℕ := 0
  latencies_ms : List ℚ := []
  start_time : ℚ := 0
  end_time : ℚ := 0
  errors : List String := []
  deriving DecidableEq, Repr

/-- Embeds `ClientMetrics.latency_mean_ms` property. -/
def ClientMetrics.latency_mean_ms (c : ClientMetrics) : ℚ :=
  if c.latencies_ms.isEmpty then 0 else meanQ c.latencies_ms

/-- Embeds `ClientMetrics.latency_p50_ms` property. -/
def ClientMetrics.latency_p50_ms (c : ClientMetrics) : ℚ :=
  if c.latencies_ms.isEmpty then 0 else medianQ c.latencies_ms

/-- Embeds `ClientMetrics.latency_p99_ms` property (`metrics.py` lines 103-109). -/
def ClientMetrics.latency_p99_ms (c : ClientMetrics) : ℚ :=
  if c.latencies_ms.isEmpty then 0
  else
    let sorted_latencies := sortQ c.latencies_ms
    let idx := 99 * sorted_latencies.length / 100
    sorted_latencies.getD (min idx (sorted_latencies.length - 1)) 0

/-- Embeds `ClientMetrics.latency_max_ms` property. -/
def ClientMetrics.latency_max_ms (c : ClientMetrics) : ℚ :=
  if c.latencies_ms.isEmpty then 0 else maxQ c.latencies_ms

/-- Embeds `ClientMetrics.latency_min_ms` property. -/
def ClientMetrics.latency_min_ms (c : ClientMetrics) : ℚ :=
  if c.latencies_ms.isEmpty then 0 else minQ c.latencies_ms

/-- Embeds `ClientMetrics.duration_sec` property. -/
def ClientMetrics.duration_sec (c : ClientMetrics) : ℚ := c.end_time - c.start_time

/-- Embeds `ClientMetrics.throughput` property (`metrics.py` lines 127-131): zero when
the duration is nonpositive, otherwise `log_count / duration`. -/
def ClientMetrics.throughput (c : ClientMetrics) : ℚ :=
  if c.duration_sec ≤ 0 then 0
  else (c.log_count : ℚ) / c.duration_sec

/-- Embeds `bench.metrics.AggregatedClientMetrics` (stored fields). -/
structure AggregatedClientMetrics where
  total_log_count : ℕ := 0
  total_throughput : ℚ := 0
  latency_mean_ms : ℚ := 0
  latency_p50_ms : ℚ := 0
  latency_p99_ms : ℚ := 0
  latency_max_ms : ℚ := 0
  latency_min_ms : ℚ := 0
  client_count : ℕ := 0
  deriving DecidableEq, Repr

/-- One step of the accumulation loop in `from_clients` (`metrics.py`
lines 190-193): extend the merged latency list, add the log count, add the
client's own throughput. -/
def aggStep (acc : List ℚ × ℕ × ℚ) (c : ClientMetrics) : List ℚ × ℕ × ℚ :=
  (acc.1 ++ c.latencies_ms, acc.2.1 + c.log_count, acc.2.2 + c.throughput)

/-- Embeds `AggregatedClientMetrics.from_clients` (`metrics.py` lines 181-210). -/
def AggregatedClientMetrics.from_clients (clients : List ClientMetrics) :
    AggregatedClientMetrics :=
  if clients.isEmpty then {}
  else
    let acc := clients.foldl aggStep ([], 0, 0)
    let all_latencies := acc.1
    let base : AggregatedClientMetrics :=
      { total_log_count := acc.2.1
        total_throughput := acc.2.2
        client_count := clients.length }
    if all_latencies.isEmpty then base
    else
      let sorted_latencies := sortQ all_latencies
      let idx := 99 * sorted_latencies.length / 100
      { base with
        latency_mean_ms := meanQ all_latencies
        latency_p50_ms := medianQ all_latencies
        latency_p99_ms := sorted_latencies.getD (min idx (sorted_latencies.length - 1)) 0
        latency_max_ms := maxQ all_latencies
        latency_min_ms := minQ all_latencies }

/-- Embeds `AggregatedClientMetrics.to_dict`, which emits exactly the stored fields
(`metrics.py` lines 212-222), so its dict form is the record itself. -/
def AggregatedClientMetrics.to_dict (a : AggregatedClientMetrics) :
    AggregatedClientMetrics := a

/-- A JSON value, used to model `dict[str, Any]` payloads (the configuration
snapshot) that `json.dump`/`json.load` carry through unchanged. -/
inductive Json where
  | null : Json
  | bool (b : Bool) : Json
  | num (q : ℚ) : Json
  | str (s : String) : Json
  | arr (xs : List Json) : Json
  | obj (kvs : List (String × Json)) : Json

/-- The persisted dict form of `ServerMetrics.to_dict` (`metrics.py`
lines 46-58): stored fields plus the derived peak/avg/duration. -/
structure ServerMetricsDict where
  memory_samples : List MemorySample
  memory_peak_mb : ℚ
  memory_avg_mb : ℚ
  start_time : ℚ
  end_time : ℚ
  duration_sec : ℚ
  rrd_file_size_mb : ℚ

/-- Embeds `ServerMetrics.to_dict`. -/
def ServerMetrics.to_dict (m : ServerMetrics) : ServerMetricsDict :=
  { memory_samples := m.memory_samples.map (fun s => ⟨s.timestamp, s.memory_mb⟩)
    memory_peak_mb := m.memory_peak_mb
    memory_avg_mb := m.memory_avg_mb
    start_time := m.start_time
    end_time := m.end_time
    duration_sec := m.duration_sec
    rrd_file_size_mb := m.rrd_file_size_mb }

/-- Embeds `ServerMetrics.from_dict` (`metrics.py` lines 60-74): reads back the stored
fields and rebuilds the sample list in order; derived fields are ignored. -/
def ServerMetrics.from_dict (d : ServerMetricsDict) : ServerMetrics :=
  { start_time := d.start_time
    end_time := d.end_time
    rrd_file_size_mb := d.rrd_file_size_mb
    memory_samples := d.memory_samples.map (fun s => ⟨s.timestamp, s.memory_mb⟩) }

/-- The persisted dict form of `ClientMetrics.to_dict` (`metrics.py`
lines 133-151): stored fields plus derived statistics. -/
structure ClientMetricsDict where
  client_id : String
  data_type : String
  data_size : ℤ ⊕ String
  frequency_hz : ℚ
  log_count : ℕ
  latencies_ms : List ℚ
  latency_mean_ms : ℚ
  latency_p50_ms : ℚ
  latency_p99_ms : ℚ
  latency_max_ms : ℚ
  latency_min_ms : ℚ
  start_time : ℚ
  end_time : ℚ
  duration_sec : ℚ
  throughput : ℚ
  errors : List String
  deriving DecidableEq, Repr

/-- Embeds `ClientMetrics.to_dict`. -/
def ClientMetrics.to_dict (c : ClientMetrics) : ClientMetricsDict :=
  { client_id := c.client_id
    data_type := c.data_type
    data_size := c.data_size
    frequency_hz := c.frequency_hz
    log_count := c.log_count
    latencies_ms := c.latencies_ms
    latency_mean_ms := c.latency_mean_ms
    latency_p50_ms := c.latency_p50_ms
    latency_p99_ms := c.latency_p99_ms
    latency_max_ms := c.latency_max_ms
    latency_min_ms := c.latency_min_ms
    start_time := c.start_time
    end_time := c.end_time
    duration_sec := c.duration_sec
    throughput := c.throughput
    errors := c.errors }

/-- Embeds `ClientMetrics.from_dict` (`metrics.py` lines 153-165): reads back exactly
the stored fields; derived fields are ignored. -/
def ClientMetrics.from_dict (d : ClientMetricsDict) : ClientMetrics :=
  { client_id := d.client_id
    data_type := d.data_type
    data_size := d.data_size
    frequency_hz := d.frequency_hz
    log_count := d.log_count
    latencies_ms := d.latencies_ms
    start_time := d.start_time
    end_time := d.end_time
    errors := d.errors }

/-- Embeds `bench.metrics.BenchmarkResult` (stored fields). -/
structure BenchmarkResult where
  name : String
  description : String
  backend_type : String
  timestamp : String := ""
  server_metrics : ServerMetrics := {}
  client_metrics : List ClientMetrics := []
  config_snapshot : Json := .obj []

/-- Embeds `BenchmarkResult.aggregated_client_metrics` property. -/
def BenchmarkResult.aggregated_client_metrics (r : BenchmarkResult) :
    AggregatedClientMetrics :=
  AggregatedClientMetrics.from_clients r.client_metrics

/-- The persisted JSON form of a `BenchmarkResult` (`metrics.py`
lines 241-251). -/
structure BenchmarkResultDict where
  name : String
  description : String
  backend_type : String
  timestamp : String
  server_metrics : ServerMetricsDict
  client_metrics : List ClientMetricsDict
  aggregated_client_metrics : AggregatedClientMetrics
  config_snapshot : Json

/-- Embeds `BenchmarkResult.to_dict`. -/
def BenchmarkResult.to_dict (r : BenchmarkResult) : BenchmarkResultDict :=
  { name := r.name
    description := r.description
    backend_type := r.backend_type
    timestamp := r.timestamp
    server_metrics := r.server_metrics.to_dict
    client_metrics := r.client_metrics.map ClientMetrics.to_dict
    aggregated_client_metrics := r.aggregated_client_metrics.to_dict
    config_snapshot := r.config_snapshot }

/-- Embeds `BenchmarkResult.save` (`metrics.py` lines 253-264), which writes
`json.dump(self.to_dict())`; the persisted file content is modelled as the
dict itself (`json.dump`/`json.load` round-trip JSON values unchanged). -/
def BenchmarkResult.save (r : BenchmarkResult) : BenchmarkResultDict :=
  r.to_dict

/-- Embeds `BenchmarkResult.load` (`metrics.py` lines 266-281). -/
def BenchmarkResult.load (d : BenchmarkResultDict) : BenchmarkResult :=
  { name := d.name
    description := d.description
    backend_type := d.backend_type
    timestamp := d.timestamp
    server_metrics := ServerMetrics.from_dict d.server_metrics
    client_metrics := d.client_metrics.map ClientMetrics.from_dict
    config_snapshot := d.config_snapshot }

/-- A client group from the configuration (`config.py` `ClientConfig`):
the fields `run_benchmark` consults when launching. -/
structure ClientGroup where
  language : String
  count : ℕ
  deriving DecidableEq, Repr

/-- Embeds `RerunServer.start` outcome model (`server.py` lines 65-79): after the
1-second warm-up, if the subprocess has already exited (`poll()` is not
`None`), raise a `RuntimeError` whose message embeds the captured stdout and
stderr verbatim; otherwise the start succeeds. -/
def rerunStartOutcome (exited : Bool) (stdout stderr : String) :
    Except String Unit :=
  if exited then
    .error ("Rerun server failed to start.\nstdout: " ++ stdout
      ++ "\nstderr: " ++ stderr)
  else .ok ()

/-- Errors raised inside `run_benchmark` (`runner.py`): a server-start failure
propagated from `server.start`, the `RuntimeError("Server failed to start")`
liveness check, the `RuntimeError("No clients started")` check, and an
exception escaping `server.stop()`. -/
inductive BenchError where
  | serverStart (msg : String) : BenchError
  | serverNotRunning : BenchError
  | noClients : BenchError
  | serverStop (msg : String) : BenchError
  deriving DecidableEq, Repr

/-- The environment a `run_benchmark` call runs against: the outcome of
`server.start`, the liveness poll after the warm-up sleep, the backend's
supported languages, the configured client groups, and the outcome of
`server.stop`. -/
structure RunEnv where
  startOutcome : Except String Unit
  runningAfterWarmup : Bool
  supported : List String
  groups : List ClientGroup
  stopOutcome : Except String Unit

/-- Observable trace of one `run_benchmark` call. -/
structure RunTrace where
  launched : List String
  stopCalled : Bool
  metricsCollected : Bool
  tmpdirCleaned : Bool
  outcome : Except BenchError Unit

/-- The client-launch loop of `run_benchmark` (`runner.py` lines 66-95):
groups whose language is unsupported are skipped (with a warning); each
launched client gets the sequential id `client_{idx}` where `idx` counts
launched clients across groups. -/
def launchClients (supported : List String) :
    List ClientGroup → ℕ → List String
  | [], _ => []
  | g :: rest, idx =>
    if g.language ∈ supported then
      (List.range g.count).map (fun i => "client_" ++ toString (idx + i))
        ++ launchClients supported rest (idx + g.count)
    else launchClients supported rest idx

/-- Embeds `run_benchmark` control flow (`runner.py` lines 27-128). The outer
`try/finally` always removes the temporary directory; the inner `try/finally`
always calls `server.stop()` once the inner block was entered — and an
exception raised by `server.stop()` itself propagates (there is no handler
around it), replacing any in-flight inner exception, so metrics collection is
skipped. Clients are launched only after `server.start` succeeded and the
liveness check passed. -/
def run_benchmark (env : RunEnv) : RunTrace :=
  match env.startOutcome with
  | .error e =>
    { launched := []
      stopCalled := false
      metricsCollected := false
      tmpdirCleaned := true
      outcome := .error (.serverStart e) }
  | .ok _ =>
    let launched :=
      if env.runningAfterWarmup then launchClients env.supported env.groups 0
      else []
    let innerOutcome : Except BenchError Unit :=
      if ¬ env.runningAfterWarmup then .error .serverNotRunning
      else if launched.isEmpty then .error .noClients
      else .ok ()
    match env.stopOutcome with
    | .error e =>
      { launched := launched
        stopCalled := true
        metricsCollected := false
        tmpdirCleaned := true
        outcome := .error (.serverStop e) }
    | .ok _ =>
      match innerOutcome with
      | .error e =>
        { launched := launched
          stopCalled := true
          metricsCollected := false
          tmpdirCleaned := true
          outcome := .error e }
      | .ok _ =>
        { launched := launched
          stopCalled := true
          metricsCollected := true
          tmpdirCleaned := true
          outcome := .ok () }

/-- Outcome of one publish attempt inside the client loop: the latency it
recorded, or the message of the exception it raised. -/
def PubOutcome := Except String ℚ

/-- The client publish loop of `client_py.py` `main` (lines 108-124), with the
wall-clock condition abstracted into the number `iters` of times the
`while time.time() < end_time` check passes. Returns the final local
`log_count`, the local `latencies` list, and the message of the exception that
ended the loop early, if any. -/
def clientLoopRun (pub : ℕ → Except String ℚ) :
    ℕ → ℕ → List ℚ → ℕ × List ℚ × Option String
  | 0, k, acc => (k, acc, none)
  | n + 1, k, acc =>
    match pub k with
    | .ok lat => clientLoopRun pub n (k + 1) (acc ++ [lat])
    | .error e => (k, acc, some e)

/-- Embeds `client_py.py` `main` (lines 90-135): the `try/except/finally` around the
publish loop. `connect` is the outcome of `rr.init`/`rr.connect_grpc`;
`t_start`/`t_end` are the wall-clock readings taken for `metrics.start_time`
and `metrics.end_time`. Returns the list of metrics-file writes performed by
`save_client_metrics` (the `finally` block). On an exception, only the error
message and `end_time` are recorded on the metrics object — the local
`log_count` and `latencies` variables are not copied into it (that assignment
sits on the normal path, lines 126-128). -/
def clientMain (client_id data_type : String) (data_size : ℤ ⊕ String)
    (frequency : ℚ) (connect : Except String Unit) (iters : ℕ)
    (pub : ℕ → Except String ℚ) (t_start t_end : ℚ) : List ClientMetricsDict :=
  let m0 : ClientMetrics :=
    { client_id := client_id
      data_type := data_type
      data_size := data_size
      frequency_hz := frequency }
  match connect with
  | .error e =>
    [ClientMetrics.to_dict { m0 with errors := [e], end_time := t_end }]
  | .ok _ =>
    let m1 := { m0 with start_time := t_start }
    match clientLoopRun pub iters 0 [] with
    | (k, acc, none) =>
      [ClientMetrics.to_dict
        { m1 with end_time := t_end, log_count := k, latencies_ms := acc }]
    | (_, _, some e) =>
      [ClientMetrics.to_dict { m1 with errors := [e], end_time := t_end }]

/-- The timing behaviour of the publish loop (`client_py.py` lines 104-124)
with real time modelled as a rational state: iteration `k` starts only if the
current time is below `startT + duration`; the publish call advances time by
`p k ≥ 0`; the next target is the absolute schedule point
`startT + (k + 1) * interval`; when the remaining delta to that target is
positive the loop sleeps exactly to the target plus an oversleep `o k ≥ 0`,
and otherwise it does not sleep at all. Returns the final `log_count`. `fuel`
bounds the recursion and never binds when it exceeds the iteration count. -/
def publishLoop (startT duration interval : ℚ) (p o : ℕ → ℚ) :
    ℕ → ℚ → ℕ → ℕ
  | 0, _, k => k
  | fuel + 1, t, k =>
    if t < startT + duration then
      let t1 := t + p k
      let next_time := startT + (k + 1 : ℕ) * interval
      let sleep_time := next_time - t1
      let t2 := if 0 < sleep_time then next_time + o k else t1
      publishLoop startT duration interval p o fuel t2 (k + 1)
    else k

/-- One tick of the memory-sampler loop (`server.py` lines 100-116): the stop
event may be observed set, or the memory read succeeds at a wall-clock
timestamp, or the process is gone (`NoSuchProcess`, break), or some other
exception is swallowed (`pass`, no sample appended). -/
inductive SampleEvent where
  | stopSet : SampleEvent
  | memOk (t mem : ℚ) : SampleEvent
  | memGone : SampleEvent
  | memErr : SampleEvent

/-- The wall-clock reading of a tick, when the tick appends a sample. -/
def SampleEvent.timeOf : SampleEvent → Option ℚ
  | .memOk t _ => some t
  | _ => none

/-- Embeds `RerunServer._monitor_memory` (`server.py` lines 89-116) as a fold over
the sequence of loop ticks: append one sample per successful memory read, stop
on the stop event or on `NoSuchProcess`, skip the tick on any other
exception. -/
def monitorMemory : List SampleEvent → List MemorySample
  | [] => []
  | .stopSet :: _ => []
  | .memOk t mem :: rest => ⟨t, mem⟩ :: monitorMemory rest
  | .memGone :: _ => []
  | .memErr :: rest => monitorMemory rest

theorem sortQ_length (l : List ℚ) : (sortQ l).length = l.length :=
  (List.perm_insertionSort _ l).length_eq

theorem mapSampleCopy (l : List MemorySample) :
    l.map (fun s => (⟨s.timestamp, s.memory_mb⟩ : MemorySample)) = l := by
  simp only [show (fun s : MemorySample => (⟨s.timestamp, s.memory_mb⟩ : MemorySample)) = id
    from funext fun s => rfl, List.map_id]

theorem serverMetrics_from_to (m : ServerMetrics) :
    ServerMetrics.from_dict m.to_dict = m := by
  cases m
  simp [ServerMetrics.from_dict, ServerMetrics.to_dict, mapSampleCopy]

theorem clientMetrics_from_to (c : ClientMetrics) :
    ClientMetrics.from_dict c.to_dict = c := by
  cases c
  rfl

/-- C10: `ClientMetrics.throughput` is total: it returns `0` whenever the
duration `end_time - start_time` is nonpositive (never dividing by zero or
raising), and otherwise returns `log_count` divided by that duration. -/
theorem throughput_total (c : ClientMetrics) :
    (c.duration_sec ≤ 0 → c.throughput = 0) ∧
    (0 < c.duration_sec → c.throughput = (c.log_count : ℚ) / c.duration_sec) := by
  constructor
  · intro h
    simp [ClientMetrics.throughput, h]
  · intro h
    simp [ClientMetrics.throughput, not_le.mpr h]

theorem throughput_total_witness :
    0 < ClientMetrics.duration_sec { log_count := 10, end_time := 2 } ∧
    ClientMetrics.throughput { log_count := 10, end_time := 2 } =
      ((({ log_count := 10, end_time := 2 } : ClientMetrics).log_count : ℚ) /
        ClientMetrics.duration_sec { log_count := 10, end_time := 2 }) := by
  have h : 0 < ClientMetrics.duration_sec { log_count := 10, end_time := 2 } := by
    norm_num [ClientMetrics.duration_sec]
  exact ⟨h, (throughput_total { log_count := 10, end_time := 2 }).2 h⟩

/-- C2: the p99 latency is computed by nearest-rank: sort ascending, take
index `⌊0.99 * n⌋` (equal to `99 * n / 100` in exact arithmetic) clamped to
`n - 1`; for `[1, 2, ..., 100]` the p99 is `100`, and for the empty series it
is `0`. -/
theorem latency_p99_nearest_rank :
    (∀ c : ClientMetrics, c.latencies_ms ≠ [] →
      c.latency_p99_ms =
        (sortQ c.latencies_ms).getD
          (min (99 * c.latencies_ms.length / 100) (c.latencies_ms.length - 1)) 0) ∧
    ClientMetrics.latency_p99_ms
      { latencies_ms := (List.range 100).map (fun i => ((i + 1 : ℕ) : ℚ)) } = 100 ∧
    ClientMetrics.latency_p99_ms { latencies_ms := [] } = 0 := by
  refine ⟨?_, by decide, rfl⟩
  intro c h
  simp [ClientMetrics.latency_p99_ms, List.isEmpty_iff, h, sortQ_length]

theorem latency_p99_nearest_rank_witness :
    ({ latencies_ms := [3, 1, 2] } : ClientMetrics).latencies_ms ≠ [] ∧
    ClientMetrics.latency_p99_ms { latencies_ms := [3, 1, 2] } =
      (sortQ [3, 1, 2]).getD (min (99 * 3 / 100) (3 - 1)) 0 :=
  ⟨by decide, latency_p99_nearest_rank.1 { latencies_ms := [3, 1, 2] } (by decide)⟩

/-- C3: serializing a `BenchmarkResult` to its persisted JSON form (`save` via
`to_dict`) and reloading it (`load` via `from_dict`) reproduces identical
server metrics (samples, start/end times, artifact size), identical client
metrics records, and an identical configuration snapshot. -/
theorem benchmark_result_round_trip (r : BenchmarkResult) :
    (BenchmarkResult.load r.save).server_metrics = r.server_metrics ∧
    (BenchmarkResult.load r.save).client_metrics = r.client_metrics ∧
    (BenchmarkResult.load r.save).config_snapshot = r.config_snapshot := by
  refine ⟨serverMetrics_from_to r.server_metrics, ?_, rfl⟩
  show (r.client_metrics.map ClientMetrics.to_dict).map ClientMetrics.from_dict
      = r.client_metrics
  rw [List.map_map]
  simp [Function.comp_def, clientMetrics_from_to]

theorem monitor_mem_time {events : List SampleEvent} {s : MemorySample}
    (hs : s ∈ monitorMemory events) :
    s.timestamp ∈ events.filterMap SampleEvent.timeOf := by
  induction events with
  | nil => simp [monitorMemory] at hs
  | cons e rest ih =>
    cases e with
    | stopSet => simp [monitorMemory] at hs
    | memGone => simp [monitorMemory] at hs
    | memErr =>
      simp only [monitorMemory] at hs
      simpa [List.filterMap_cons, SampleEvent.timeOf] using ih hs
    | memOk t mem =>
      simp only [monitorMemory, List.mem_cons] at hs
      rcases hs with h | h
      · subst h
        simp [List.filterMap_cons, SampleEvent.timeOf]
      · simpa [List.filterMap_cons, SampleEvent.timeOf] using Or.inr (ih h)

/-- C9: within one sampler run, the timestamps of the appended samples are
non-decreasing: whenever the wall-clock readings the sampler observes are
themselves non-decreasing, every earlier-appended sample's timestamp is at
most every later-appended one's. -/
theorem monitor_timestamps_mono (events : List SampleEvent)
    (h : (events.filterMap SampleEvent.timeOf).Pairwise (· ≤ ·)) :
    (monitorMemory events).Pairwise (fun a b => a.timestamp ≤ b.timestamp) := by
  induction events with
  | nil => simp [monitorMemory]
  | cons e rest ih =>
    cases e with
    | stopSet => simp [monitorMemory]
    | memGone => simp [monitorMemory]
    | memErr =>
      simp only [List.filterMap_cons, SampleEvent.timeOf] at h
      exact ih h
    | memOk t mem =>
      simp only [List.filterMap_cons, SampleEvent.timeOf] at h
      rw [List.pairwise_cons] at h
      simp only [monitorMemory, List.pairwise_cons]
      exact ⟨fun s hs => h.1 s.timestamp (monitor_mem_time hs), ih h.2⟩

theorem monitor_timestamps_mono_witness :
    (([SampleEvent.memOk 1 5, SampleEvent.memErr, SampleEvent.memOk 2 6,
        SampleEvent.stopSet].filterMap SampleEvent.timeOf).Pairwise (· ≤ ·)) ∧
    (monitorMemory [SampleEvent.memOk 1 5, SampleEvent.memErr,
        SampleEvent.memOk 2 6, SampleEvent.stopSet]).Pairwise
      (fun a b => a.timestamp ≤ b.timestamp) :=
  ⟨by decide, monitor_timestamps_mono _ (by decide)⟩

theorem aggFold (clients : List ClientMetrics) (acc : List ℚ × ℕ × ℚ) :
    clients.foldl aggStep acc =
      (acc.1 ++ clients.flatMap ClientMetrics.latencies_ms,
        acc.2.1 + (clients.map ClientMetrics.log_count).sum,
        acc.2.2 + (clients.map ClientMetrics.throughput).sum) := by
  induction clients generalizing acc with
  | nil => simp
  | cons c rest ih =>
    simp only [List.foldl_cons, ih, aggStep, List.flatMap_cons, List.map_cons,
      List.sum_cons]
    simp [List.append_assoc, add_assoc]

theorem from_clients_eq (clients : List ClientMetrics)
    (h : clients.isEmpty = false) :
    AggregatedClientMetrics.from_clients clients =
      { total_log_count := (clients.map ClientMetrics.log_count).sum
        total_throughput := (clients.map ClientMetrics.throughput).sum
        client_count := clients.length
        latency_mean_ms := ClientMetrics.latency_mean_ms
          { latencies_ms := clients.flatMap ClientMetrics.latencies_ms }
        latency_p50_ms := ClientMetrics.latency_p50_ms
          { latencies_ms := clients.flatMap ClientMetrics.latencies_ms }
        latency_p99_ms := ClientMetrics.latency_p99_ms
          { latencies_ms := clients.flatMap ClientMetrics.latencies_ms }
        latency_max_ms := ClientMetrics.latency_max_ms
          { latencies_ms := clients.flatMap ClientMetrics.latencies_ms }
        latency_min_ms := ClientMetrics.latency_min_ms
          { latencies_ms := clients.flatMap ClientMetrics.latencies_ms } } := by
  unfold AggregatedClientMetrics.from_clients
  rw [h]
  simp only [Bool.false_eq_true, if_false, aggFold, List.nil_append, zero_add]
  by_cases hm : (clients.flatMap ClientMetrics.latencies_ms).isEmpty
  · simp [hm, ClientMetrics.latency_mean_ms, ClientMetrics.latency_p50_ms,
      ClientMetrics.latency_p99_ms, ClientMetrics.latency_max_ms,
      ClientMetrics.latency_min_ms]
  · simp only [Bool.not_eq_true] at hm
    simp [hm, ClientMetrics.latency_mean_ms, ClientMetrics.latency_p50_ms,
      ClientMetrics.latency_p99_ms, ClientMetrics.latency_max_ms,
      ClientMetrics.latency_min_ms]

/-- C1: `AggregatedClientMetrics.from_clients` sums each client's log count,
sums each client's independently computed throughput, counts the clients, and
computes every latency statistic over the concatenation of all clients'
latency series; the empty list yields the all-zero aggregate (and the
function is total, so it never raises). -/
theorem from_clients_correct (clients : List ClientMetrics) :
    (AggregatedClientMetrics.from_clients clients).total_log_count =
      (clients.map ClientMetrics.log_count).sum ∧
    (AggregatedClientMetrics.from_clients clients).total_throughput =
      (clients.map ClientMetrics.throughput).sum ∧
    (AggregatedClientMetrics.from_clients clients).client_count =
      clients.length ∧
    (AggregatedClientMetrics.from_clients clients).latency_mean_ms =
      ClientMetrics.latency_mean_ms
        { latencies_ms := clients.flatMap ClientMetrics.latencies_ms } ∧
    (AggregatedClientMetrics.from_clients clients).latency_p50_ms =
      ClientMetrics.latency_p50_ms
        { latencies_ms := clients.flatMap ClientMetrics.latencies_ms } ∧
    (AggregatedClientMetrics.from_clients clients).latency_p99_ms =
      ClientMetrics.latency_p99_ms
        { latencies_ms := clients.flatMap ClientMetrics.latencies_ms } ∧
    (AggregatedClientMetrics.from_clients clients).latency_max_ms =
      ClientMetrics.latency_max_ms
        { latencies_ms := clients.flatMap ClientMetrics.latencies_ms } ∧
    (AggregatedClientMetrics.from_clients clients).latency_min_ms =
      ClientMetrics.latency_min_ms
        { latencies_ms := clients.flatMap ClientMetrics.latencies_ms } ∧
    AggregatedClientMetrics.from_clients [] =
      { total_log_count := 0, total_throughput := 0, latency_mean_ms := 0,
        latency_p50_ms := 0, latency_p99_ms := 0, latency_max_ms := 0,
        latency_min_ms := 0, client_count := 0 } := by
  by_cases h : clients.isEmpty
  · have he : clients = [] := List.isEmpty_iff.mp h
    subst he
    exact ⟨rfl, rfl, rfl, rfl, rfl, rfl, rfl, rfl, rfl⟩
  · rw [from_clients_eq clients (Bool.not_eq_true _ ▸ h)]
    exact ⟨rfl, rfl, rfl, rfl, rfl, rfl, rfl, rfl, rfl⟩
theorem launchClients_length (supported : List String) :
    ∀ (groups : List ClientGroup) (idx : ℕ),
      (launchClients supported groups idx).length =
        ((groups.filter (fun g => g.language ∈ supported)).map
          ClientGroup.count).sum := by
  intro groups
  induction groups with
  | nil => intro idx; simp [launchClients]
  | cons g rest ih =>
    intro idx
    simp only [launchClients, List.filter_cons]
    by_cases hg : g.language ∈ supported
    · simp [hg, ih]
    · simp [hg, ih]

theorem run_benchmark_ok_eval (env : RunEnv)
    (hstart : env.startOutcome = .ok ())
    (hrun : env.runningAfterWarmup = true)
    (hstop : env.stopOutcome = .ok ()) :
    run_benchmark env =
      if launchClients env.supported env.groups 0 = [] then
        { launched := launchClients env.supported env.groups 0,
          stopCalled := true, metricsCollected := false, tmpdirCleaned := true,
          outcome := .error .noClients }
      else
        { launched := launchClients env.supported env.groups 0,
          stopCalled := true, metricsCollected := true, tmpdirCleaned := true,
          outcome := .ok () } := by
  unfold run_benchmark
  rw [hstart, hrun, hstop]
  by_cases hz : launchClients env.supported env.groups 0 = []
  · simp [hz]
  · simp [hz]

/-- C4: with the server started and alive, the number of launched client
processes equals the sum of the counts of the groups whose language the
backend supports; unsupported groups are skipped without aborting (the run
succeeds whenever the eligible count is positive), and a zero eligible count
aborts the run with the no-clients-started error. -/
theorem client_launch_count (env : RunEnv)
    (hstart : env.startOutcome = .ok ())
    (hrun : env.runningAfterWarmup = true)
    (hstop : env.stopOutcome = .ok ()) :
    (run_benchmark env).launched.length =
      ((env.groups.filter (fun g => g.language ∈ env.supported)).map
        ClientGroup.count).sum ∧
    (((env.groups.filter (fun g => g.language ∈ env.supported)).map
        ClientGroup.count).sum = 0 →
      (run_benchmark env).outcome = .error .noClients) ∧
    (((env.groups.filter (fun g => g.language ∈ env.supported)).map
        ClientGroup.count).sum ≠ 0 →
      (run_benchmark env).outcome = .ok ()) := by
  have hlen := launchClients_length env.supported env.groups 0
  by_cases hz : launchClients env.supported env.groups 0 = []
  · rw [run_benchmark_ok_eval env hstart hrun hstop, if_pos hz]
    have hsum : ((env.groups.filter (fun g => g.language ∈ env.supported)).map
        ClientGroup.count).sum = 0 := by
      rw [← hlen, hz]
      rfl
    exact ⟨hlen, fun _ => rfl, fun hc => absurd hsum hc⟩
  · rw [run_benchmark_ok_eval env hstart hrun hstop, if_neg hz]
    have hsum : ((env.groups.filter (fun g => g.language ∈ env.supported)).map
        ClientGroup.count).sum ≠ 0 := by
      rw [← hlen]
      simpa [List.length_eq_zero] using hz
    exact ⟨hlen, fun hc => absurd hc hsum, fun _ => rfl⟩

theorem client_launch_count_witness :
    (run_benchmark
      { startOutcome := .ok (), runningAfterWarmup := true,
        supported := ["python"],
        groups := [{ language := "python", count := 2 },
          { language := "cpp", count := 3 }],
        stopOutcome := .ok () }).launched.length =
      (([({ language := "python", count := 2 } : ClientGroup),
          { language := "cpp", count := 3 }].filter
            (fun g => g.language ∈ ["python"])).map ClientGroup.count).sum ∧
    (run_benchmark
      { startOutcome := .ok (), runningAfterWarmup := true,
        supported := ["python"],
        groups := [{ language := "python", count := 2 },
          { language := "cpp", count := 3 }],
        stopOutcome := .ok () }).outcome = .ok () := by
  have h := client_launch_count
    { startOutcome := .ok (), runningAfterWarmup := true,
      supported := ["python"],
      groups := [{ language := "python", count := 2 },
        { language := "cpp", count := 3 }],
      stopOutcome := .ok () } rfl rfl rfl
  exact ⟨h.1, h.2.2 (by decide)⟩

/-- C5: when the server subprocess has already exited at the post-warm-up
liveness poll, `start()` fails with an error whose payload embeds the
captured stdout and stderr verbatim, and the orchestrator launches no client
process in that run. -/
theorem server_start_failure (env : RunEnv) (out err : String)
    (h : env.startOutcome = rerunStartOutcome true out err) :
    (run_benchmark env).launched = [] ∧
    (run_benchmark env).outcome =
      .error (.serverStart ("Rerun server failed to start.\nstdout: " ++ out
        ++ "\nstderr: " ++ err)) := by
  unfold run_benchmark
  rw [h]
  simp [rerunStartOutcome]

theorem server_start_failure_witness :
    ({ startOutcome := rerunStartOutcome true "" "error: bind failed",
       runningAfterWarmup := false, supported := ["python"],
       groups := [{ language := "python", count := 1 }],
       stopOutcome := .ok () } : RunEnv).startOutcome =
      rerunStartOutcome true "" "error: bind failed" ∧
    (run_benchmark
      { startOutcome := rerunStartOutcome true "" "error: bind failed",
        runningAfterWarmup := false, supported := ["python"],
        groups := [{ language := "python", count := 1 }],
        stopOutcome := .ok () }).launched = [] ∧
    (run_benchmark
      { startOutcome := rerunStartOutcome true "" "error: bind failed",
        runningAfterWarmup := false, supported := ["python"],
        groups := [{ language := "python", count := 1 }],
        stopOutcome := .ok () }).outcome =
      .error (.serverStart ("Rerun server failed to start.\nstdout: "
        ++ "" ++ "\nstderr: " ++ "error: bind failed")) :=
  ⟨rfl, server_start_failure _ "" "error: bind failed" rfl⟩

/-- C7 counterexample: with the server started and one eligible client group,
an exception raised by `server.stop()` escapes `run_benchmark` (the run
produces no result) and metrics collection is skipped — contradicting the
claim that stop failures are logged but never escalated and that metrics
collection always proceeds. -/
theorem server_stop_failure_cex :
    (run_benchmark
      { startOutcome := .ok (), runningAfterWarmup := true,
        supported := ["python"],
        groups := [{ language := "python", count := 1 }],
        stopOutcome := .error "terminate failed" }).outcome =
      .error (.serverStop "terminate failed") ∧
    (run_benchmark
      { startOutcome := .ok (), runningAfterWarmup := true,
        supported := ["python"],
        groups := [{ language := "python", count := 1 }],
        stopOutcome := .error "terminate failed" }).metricsCollected = false :=
  ⟨rfl, rfl⟩

/-- C7 amended: an error raised while stopping the server propagates out of
`run_benchmark` (`runner.py` has no handler around `server.stop()` in the
inner `finally`), so the run produces no result and metrics collection is
skipped; only the temporary-directory removal of the outer `finally` still
proceeds (and the stop call itself was made). -/
theorem server_stop_failure (env : RunEnv) (e : String)
    (hstart : env.startOutcome = .ok ())
    (hstop : env.stopOutcome = .error e) :
    (run_benchmark env).outcome = .error (.serverStop e) ∧
    (run_benchmark env).metricsCollected = false ∧
    (run_benchmark env).stopCalled = true ∧
    (run_benchmark env).tmpdirCleaned = true := by
  unfold run_benchmark
  rw [hstart, hstop]
  simp

theorem server_stop_failure_witness :
    (run_benchmark
      { startOutcome := .ok (), runningAfterWarmup := true,
        supported := ["python"],
        groups := [{ language := "python", count := 1 }],
        stopOutcome := .error "boom" }).outcome =
      .error (.serverStop "boom") ∧
    (run_benchmark
      { startOutcome := .ok (), runningAfterWarmup := true,
        supported := ["python"],
        groups := [{ language := "python", count := 1 }],
        stopOutcome := .error "boom" }).metricsCollected = false ∧
    (run_benchmark
      { startOutcome := .ok (), runningAfterWarmup := true,
        supported := ["python"],
        groups := [{ language := "python", count := 1 }],
        stopOutcome := .error "boom" }).stopCalled = true ∧
    (run_benchmark
      { startOutcome := .ok (), runningAfterWarmup := true,
        supported := ["python"],
        groups := [{ language := "python", count := 1 }],
        stopOutcome := .error "boom" }).tmpdirCleaned = true :=
  server_stop_failure _ "boom" rfl rfl

/-- C6 counterexample: a client whose first publish succeeds (latency 5 ms)
and whose second publish raises writes its metrics file once, but the flushed
record has `log_count = 0` and `latencies_ms = []` — the partial log count and
latencies recorded before the exception are NOT flushed, because
`client_py.py` only copies the local `log_count`/`latencies` into the metrics
object on the normal path (lines 126-128), after the loop. -/
theorem clientMain_lost_progress_cex :
    clientLoopRun (fun k => if k = 0 then .ok 5 else .error "boom") 2 0 [] =
      (1, [5], some "boom") ∧
    (clientMain "client_0" "points3d" (.inl 100) 10 (.ok ()) 2
      (fun k => if k = 0 then .ok 5 else .error "boom") 0 1).map
        ClientMetricsDict.log_count = [0] ∧
    (clientMain "client_0" "points3d" (.inl 100) 10 (.ok ()) 2
      (fun k => if k = 0 then .ok 5 else .error "boom") 0 1).map
        ClientMetricsDict.latencies_ms = [[]] ∧
    (clientMain "client_0" "points3d" (.inl 100) 10 (.ok ()) 2
      (fun k => if k = 0 then .ok 5 else .error "boom") 0 1).map
        ClientMetricsDict.errors = [["boom"]] ∧
    ¬ (clientMain "client_0" "points3d" (.inl 100) 10 (.ok ()) 2
      (fun k => if k = 0 then .ok 5 else .error "boom") 0 1).map
        ClientMetricsDict.log_count = [1] := by
  refine ⟨by decide, by decide, by decide, by decide, by decide⟩

/-- C6 amended: on every exit path — normal completion, a connect failure,
and an exception during publishing — the client writes its metrics file
exactly once; on an exception the message is appended to the errors list and
the recorded start/end times are flushed, but the flushed log count and
latency series are the initial `0`/`[]` (the loop's local partial values are
only copied into the metrics object on normal completion). -/
theorem clientMain_exit_paths (client_id data_type : String)
    (data_size : ℤ ⊕ String) (frequency : ℚ) (connect : Except String Unit)
    (iters : ℕ) (pub : ℕ → Except String ℚ) (t_start t_end : ℚ) :
    (clientMain client_id data_type data_size frequency connect iters pub
      t_start t_end).length = 1 ∧
    (∀ e, connect = .error e →
      clientMain client_id data_type data_size frequency connect iters pub
          t_start t_end =
        [ClientMetrics.to_dict
          { client_id := client_id, data_type := data_type,
            data_size := data_size, frequency_hz := frequency,
            end_time := t_end, errors := [e] }]) ∧
    (∀ k acc e, connect = .ok () →
      clientLoopRun pub iters 0 [] = (k, acc, some e) →
      clientMain client_id data_type data_size frequency connect iters pub
          t_start t_end =
        [ClientMetrics.to_dict
          { client_id := client_id, data_type := data_type,
            data_size := data_size, frequency_hz := frequency,
            start_time := t_start, end_time := t_end, errors := [e] }]) ∧
    (∀ k acc, connect = .ok () →
      clientLoopRun pub iters 0 [] = (k, acc, none) →
      clientMain client_id data_type data_size frequency connect iters pub
          t_start t_end =
        [ClientMetrics.to_dict
          { client_id := client_id, data_type := data_type,
            data_size := data_size, frequency_hz := frequency,
            log_count := k, latencies_ms := acc,
            start_time := t_start, end_time := t_end }]) := by
  refine ⟨?_, ?_, ?_, ?_⟩
  · cases hc : connect with
    | error e => simp [clientMain, hc]
    | ok u =>
      cases u
      rcases hr : clientLoopRun pub iters 0 [] with ⟨k, acc, err⟩
      cases err with
      | none => simp [clientMain, hc, hr]
      | some e => simp [clientMain, hc, hr]
  · intro e hc
    subst hc
    simp [clientMain]
  · intro k acc e hc hr
    subst hc
    simp [clientMain, hr]
  · intro k acc hc hr
    subst hc
    simp [clientMain, hr]

theorem clientMain_exit_paths_witness :
    clientLoopRun (fun _ => .ok 2) 3 0 [] = (3, [2, 2, 2], none) ∧
    (clientMain "c0" "text" (.inl 1) 1 (.ok ()) 3 (fun _ => .ok 2) 0 3).length
      = 1 ∧
    clientMain "c0" "text" (.inl 1) 1 (.ok ()) 3 (fun _ => .ok 2) 0 3 =
      [ClientMetrics.to_dict
        { client_id := "c0", data_type := "text", data_size := .inl 1,
          frequency_hz := 1, log_count := 3, latencies_ms := [2, 2, 2],
          start_time := 0, end_time := 3 }] := by
  have h := clientMain_exit_paths "c0" "text" (.inl 1) 1 (.ok ()) 3
    (fun _ => .ok 2) 0 3
  exact ⟨by decide, h.1, h.2.2.2 3 [2, 2, 2] rfl (by decide)⟩

theorem publishLoop_ge (s d i : ℚ) (p o : ℕ → ℚ) :
    ∀ (fuel : ℕ) (t : ℚ) (k : ℕ), k ≤ publishLoop s d i p o fuel t k := by
  intro fuel
  induction fuel with
  | zero => intro t k; simp [publishLoop]
  | succ n ih =>
    intro t k
    simp only [publishLoop]
    by_cases h : t < s + d
    · rw [if_pos h]
      exact le_trans (Nat.le_succ k) (ih _ (k + 1))
    · rw [if_neg h]

theorem publishLoop_le_ten (s : ℚ) (p o : ℕ → ℚ)
    (hp : ∀ j, 0 ≤ p j) (ho : ∀ j, 0 ≤ o j) :
    ∀ (fuel : ℕ) (t : ℚ) (k : ℕ), s + k * (1 / 10) ≤ t → k ≤ 10 →
      publishLoop s 1 (1 / 10) p o fuel t k ≤ 10 := by
  intro fuel
  induction fuel with
  | zero => intro t k ht hk; simpa [publishLoop] using hk
  | succ n ih =>
    intro t k ht hk
    simp only [publishLoop]
    by_cases hcond : t < s + 1
    · rw [if_pos hcond]
      have hklt : k < 10 := by
        by_contra hge
        push_neg at hge
        have h10 : (10 : ℚ) ≤ (k : ℚ) := by exact_mod_cast hge
        nlinarith
      apply ih
      · split_ifs with hs
        · have := ho k
          push_cast
          linarith
        · push_neg at hs
          have := hp k
          push_cast
          push_cast at hs
          linarith
      · omega
    · rw [if_neg hcond]
      exact hk

theorem publishLoop_ge_nine (s : ℚ) (p o : ℕ → ℚ)
    (hp : ∀ j, 0 ≤ p j) (ho : ∀ j, 0 ≤ o j)
    (hb : ∀ j, p j + o j ≤ 1 / 10) :
    ∀ (fuel : ℕ) (t : ℚ) (k : ℕ), t ≤ s + ((k : ℚ) + 1) * (1 / 10) →
      10 ≤ k + fuel → 9 ≤ publishLoop s 1 (1 / 10) p o fuel t k := by
  intro fuel
  induction fuel with
  | zero =>
    intro t k ht hk
    simp only [publishLoop]
    omega
  | succ n ih =>
    intro t k ht hk
    by_cases hk9 : 9 ≤ k
    · exact le_trans hk9 (publishLoop_ge s 1 (1 / 10) p o (n + 1) t k)
    · push_neg at hk9
      have hk8 : (k : ℚ) ≤ 8 := by
        have : k ≤ 8 := by omega
        exact_mod_cast this
      simp only [publishLoop]
      have hcond : t < s + 1 := by linarith
      rw [if_pos hcond]
      apply ih
      · split_ifs with hs
        · have := hb k
          have := hp k
          push_cast
          linarith
        · push_neg at hs
          have := hb k
          have := ho k
          push_cast
          push_cast at hs
          linarith
      · omega

/-- C8 counterexample: the 9-11 iteration bound does not hold "regardless of
per-call jitter": if the very first publish call takes a full second
(`p 0 = 1`), the loop performs exactly one iteration, far below 9, even
though the loop follows the absolute schedule exactly as written. -/
theorem publish_loop_jitter_cex :
    publishLoop 0 1 (1 / 10) (fun _ => 1) (fun _ => 0) 20 0 0 = 1 ∧
    ¬ 9 ≤ publishLoop 0 1 (1 / 10) (fun _ => 1) (fun _ => 0) 20 0 0 := by
  constructor
  · norm_num [publishLoop]
  · norm_num [publishLoop]

/-- C8 amended: in the publish loop the target of iteration `k` is the
absolute schedule point `loopStartTime + k * intervalSec`, only the remaining
delta to that target is slept (none when it is nonpositive), sleeps are never
accumulated, and the loop stops once wall-clock time reaches
`startT + durationSec` (all transcribed in `publishLoop`); consequently, for
`frequencyHz = 10` and `durationSec = 1`, the iteration count never exceeds
10 for any nonnegative per-call jitter, and it lies in `[9, 11]` provided
each iteration's publish time plus sleep overshoot is at most the 0.1 s
interval (with unbounded jitter the lower bound can fail). -/
theorem publish_loop_iteration_bounds (s : ℚ) (p o : ℕ → ℚ) (fuel : ℕ)
    (hp : ∀ j, 0 ≤ p j) (ho : ∀ j, 0 ≤ o j) :
    publishLoop s 1 (1 / 10) p o fuel s 0 ≤ 10 ∧
    ((∀ j, p j + o j ≤ 1 / 10) → 10 ≤ fuel →
      9 ≤ publishLoop s 1 (1 / 10) p o fuel s 0 ∧
      publishLoop s 1 (1 / 10) p o fuel s 0 ≤ 11) := by
  have hle := publishLoop_le_ten s p o hp ho fuel s 0 (by simp) (by omega)
  refine ⟨hle, fun hb hf => ⟨?_, le_trans hle (by omega)⟩⟩
  refine publishLoop_ge_nine s p o hp ho hb fuel s 0 ?_ (by omega)
  norm_num

theorem publish_loop_iteration_bounds_witness :
    9 ≤ publishLoop 0 1 (1 / 10) (fun _ => 0) (fun _ => 0) 20 0 0 ∧
    publishLoop 0 1 (1 / 10) (fun _ => 0) (fun _ => 0) 20 0 0 ≤ 11 :=
  (publish_loop_iteration_bounds 0 (fun _ => 0) (fun _ => 0) 20
    (fun _ => le_refl 0) (fun _ => le_refl 0)).2
      (fun _ => by norm_num) (by norm_num)
